import Mathlib

/-!
Shallow embedding of the LearnLoop backend's Interaction & Moderation
Integrity Engine: the votes controller, the reports controller, the admin
moderation controller, the moderation visibility helpers, and the rate
limiting middleware. Database rows are lists of records; Prisma operations
become pure state transitions on a `Db` value; an HTTP response status is
an `Outcome` constructor.
-/

/-- JS truthiness of a numeric request field: `null`/absent and `0` are falsy. -/
def truthy : Option Int → Bool
  | none => false
  | some n => n != 0

/-- Embeds `const parsedPostId = postId ? parseInt(postId, 10) : null` for an integer
field: a falsy (absent or zero) field parses to `null`. -/
def parsedId (x : Option Int) : Option Int :=
  if truthy x then x else none

/-- A `users` row: UUID id, integer `learningScore` (the reputation counter),
`isAdmin` flag, `role` enum (USER, SYSTEM or BOT). -/
structure User where
  id : String
  learningScore : Int
  isAdmin : Bool
  role : String
deriving DecidableEq

/-- A `posts` row, restricted to the fields this engine reads:
author, topic, moderation flag and soft-delete timestamp. -/
structure Post where
  id : Int
  authorId : String
  primaryTopicId : Int
  isHidden : Bool
  deletedAt : Option Int
deriving DecidableEq

/-- A `comments` row (no soft-delete column). -/
structure Comment where
  id : Int
  authorId : String
  isHidden : Bool
deriving DecidableEq

/-- A `votes` row: exactly one of `postId`/`commentId` is set in well-formed
states, guarded by the unique indexes (userId, postId) and (userId, commentId). -/
structure Vote where
  id : Int
  userId : String
  postId : Option Int
  commentId : Option Int
deriving DecidableEq

/-- A `reports` row, guarded by the unique indexes (reporterId, postId) and
(reporterId, commentId). -/
structure Report where
  id : Int
  reporterId : String
  postId : Option Int
  commentId : Option Int
  reason : String
deriving DecidableEq

/-- The relational store, plus the autoincrement counters for the two
serial primary keys this engine inserts into. -/
structure Db where
  users : List User
  posts : List Post
  comments : List Comment
  votes : List Vote
  reports : List Report
  nextVoteId : Int
  nextReportId : Int
deriving DecidableEq

/-- The typed outcome of one controller call, keyed to the HTTP status the
code sends: 201, 200, 400 (target shape), 400 (reason), 404, 403 (self),
409, 403 (ownership), 500. -/
inductive Outcome where
  | created
  | ok
  | removed
  | invalidTarget
  | invalidReason
  | notFound
  | selfInteraction
  | conflict
  | forbidden
  | internalError
deriving DecidableEq

/-- Embeds `prisma.post.findUnique({ where: { id } })`. -/
def findPost (db : Db) (pid : Int) : Option Post :=
  db.posts.find? (fun p => p.id == pid)

/-- Embeds `prisma.comment.findUnique({ where: { id } })`. -/
def findComment (db : Db) (cid : Int) : Option Comment :=
  db.comments.find? (fun c => c.id == cid)

/-- Embeds `prisma.user.findUnique({ where: { id } })`. -/
def findUser (db : Db) (uid : String) : Option User :=
  db.users.find? (fun u => u.id == uid)

/-- Embeds `prisma.vote.findUnique({ where: { id } })`. -/
def findVoteById (db : Db) (vid : Int) : Option Vote :=
  db.votes.find? (fun v => v.id == vid)

/-- Embeds `prisma.vote.findUnique({ where: { userId_postId: { userId, postId } } })`. -/
def findVoteByUserPost (db : Db) (uid : String) (pid : Int) : Option Vote :=
  db.votes.find? (fun v => v.userId == uid && v.postId == some pid)

/-- Embeds `prisma.vote.findUnique({ where: { userId_commentId: { userId, commentId } } })`. -/
def findVoteByUserComment (db : Db) (uid : String) (cid : Int) : Option Vote :=
  db.votes.find? (fun v => v.userId == uid && v.commentId == some cid)

/-- Embeds `prisma.report.findUnique({ where: { id } })`. -/
def findReportById (db : Db) (rid : Int) : Option Report :=
  db.reports.find? (fun r => r.id == rid)

/-- The row the unique index `reports_reporterId_postId_key` would reject a
duplicate against. -/
def findReportByUserPost (db : Db) (uid : String) (pid : Int) : Option Report :=
  db.reports.find? (fun r => r.reporterId == uid && r.postId == some pid)

/-- The row the unique index `reports_reporterId_commentId_key` would reject a
duplicate against. -/
def findReportByUserComment (db : Db) (uid : String) (cid : Int) : Option Report :=
  db.reports.find? (fun r => r.reporterId == uid && r.commentId == some cid)

/-- Embeds `prisma.report.count({ where: { postId } })`. -/
def countPostReports (db : Db) (pid : Int) : Nat :=
  (db.reports.filter (fun r => r.postId == some pid)).length

/-- Embeds `prisma.report.count({ where: { commentId } })`. -/
def countCommentReports (db : Db) (cid : Int) : Nat :=
  (db.reports.filter (fun r => r.commentId == some cid)).length

/-- Embeds `tx.user.update({ where: { id }, data: { learningScore: { increment d } } })`
as a pure list update (`d = -1` for `decrement: 1`). -/
def updateUserScore (users : List User) (uid : String) (d : Int) : List User :=
  users.map (fun u =>
    if u.id == uid then { u with learningScore := u.learningScore + d } else u)

/-- Embeds `tx.post.update({ where: { id }, data: { isHidden: b } })`. -/
def setPostHidden (posts : List Post) (pid : Int) (b : Bool) : List Post :=
  posts.map (fun p => if p.id == pid then { p with isHidden := b } else p)

/-- Embeds `tx.comment.update({ where: { id }, data: { isHidden: b } })`. -/
def setCommentHidden (comments : List Comment) (cid : Int) (b : Bool) : List Comment :=
  comments.map (fun c => if c.id == cid then { c with isHidden := b } else c)

/-- Shallow embedding of `addVote` (src/src/controllers/votesController.js).
`snap` is the database state observed by the read phase (the post/comment
lookup and the pre-insert duplicate check); `db` is the state the
`prisma.$transaction` runs against, so `snap` differing from `db` models a
concurrent writer landing between the check and the insert. The code has no
handler for a unique-constraint violation (`P2002`) raised by
`tx.vote.create`: such an error escapes to the generic `catch`, which
responds 500, modelled as `internalError`. -/
def addVoteRacy (snap db : Db) (userId : String) (postId commentId : Option Int) :
    Outcome × Db :=
  if (!truthy postId && !truthy commentId) || (truthy postId && truthy commentId) then
    (Outcome.invalidTarget, db)
  else
    match parsedId postId with
    | some pid =>
        match findPost snap pid with
        | none => (Outcome.notFound, db)
        | some post =>
            if post.deletedAt ≠ none then (Outcome.notFound, db)
            else if post.authorId = userId then (Outcome.selfInteraction, db)
            else
              match findVoteByUserPost snap userId pid with
              | some _ => (Outcome.conflict, db)
              | none =>
                  if (findVoteByUserPost db userId pid).isSome then
                    (Outcome.internalError, db)
                  else if (findUser db post.authorId).isNone then
                    (Outcome.internalError, db)
                  else
                    (Outcome.created,
                      { db with
                        votes := { id := db.nextVoteId, userId := userId,
                                   postId := some pid, commentId := none } :: db.votes,
                        users := updateUserScore db.users post.authorId 1,
                        nextVoteId := db.nextVoteId + 1 })
    | none =>
        match parsedId commentId with
        | some cid =>
            match findComment snap cid with
            | none => (Outcome.notFound, db)
            | some comment =>
                if comment.authorId = userId then (Outcome.selfInteraction, db)
                else
                  match findVoteByUserComment snap userId cid with
                  | some _ => (Outcome.conflict, db)
                  | none =>
                      if (findVoteByUserComment db userId cid).isSome then
                        (Outcome.internalError, db)
                      else if (findUser db comment.authorId).isNone then
                        (Outcome.internalError, db)
                      else
                        (Outcome.created,
                          { db with
                            votes := { id := db.nextVoteId, userId := userId,
                                       postId := none, commentId := some cid } :: db.votes,
                            users := updateUserScore db.users comment.authorId 1,
                            nextVoteId := db.nextVoteId + 1 })
        | none => (Outcome.internalError, db)

/-- Runs `addVote` as one sequential request: the read phase and the transaction
observe the same state. -/
def addVote (db : Db) (userId : String) (postId commentId : Option Int) :
    Outcome × Db :=
  addVoteRacy db db userId postId commentId

/-- Shallow embedding of `removeVote` (src/src/controllers/votesController.js).
The vote is fetched with its related `post`/`comment` author; the target's
`deletedAt` is never consulted. `vote.post ? vote.post.authorId :
vote.comment.authorId` throws on a dangling vote and lands in the generic
`catch` (500). -/
def removeVote (db : Db) (userId : String) (voteId : Int) : Outcome × Db :=
  match findVoteById db voteId with
  | none => (Outcome.notFound, db)
  | some vote =>
      if vote.userId ≠ userId then (Outcome.forbidden, db)
      else
        let postAuthor :=
          vote.postId.bind (fun pid => (findPost db pid).map (fun p => p.authorId))
        let authorOpt :=
          match postAuthor with
          | some a => some a
          | none =>
              vote.commentId.bind (fun cid => (findComment db cid).map (fun c => c.authorId))
        match authorOpt with
        | none => (Outcome.internalError, db)
        | some aid =>
            if (findUser db aid).isNone then (Outcome.internalError, db)
            else
              (Outcome.removed,
                { db with
                  votes := db.votes.filter (fun v => v.id != voteId),
                  users := updateUserScore db.users aid (-1) })

/-- The `ReportReason` enum accepted by `reportContent`. -/
def validReasons : List String :=
  ["SPAM", "INAPPROPRIATE", "HARASSMENT", "MISINFORMATION", "OFF_TOPIC", "OTHER"]

/-- Auto-hide threshold `REPORT_THRESHOLD` from the reports controller. -/
def REPORT_THRESHOLD : Nat := 5

/-- Shallow embedding of `reportContent` (the reports controller). Unlike
`addVote` there is no pre-insert duplicate check: the unique indexes on
(reporterId, postId) / (reporterId, commentId) reject a duplicate insert and
the `catch` translates the `P2002` error to 409 (`conflict`). On success the
transaction inserts the report, counts the reports now stored for the exact
target, and sets `isHidden` when the count reaches `REPORT_THRESHOLD`. -/
def reportContent (db : Db) (userId : String) (postId commentId : Option Int)
    (reason : String) : Outcome × Db :=
  if (!truthy postId && !truthy commentId) || (truthy postId && truthy commentId) then
    (Outcome.invalidTarget, db)
  else if !(validReasons.contains reason) then (Outcome.invalidReason, db)
  else if truthy postId then
    let pid := postId.getD 0
    match findPost db pid with
    | none => (Outcome.notFound, db)
    | some post =>
        if post.deletedAt ≠ none then (Outcome.notFound, db)
        else if post.authorId = userId then (Outcome.selfInteraction, db)
        else if (findReportByUserPost db userId pid).isSome then
          (Outcome.conflict, db)
        else
          let db1 := { db with
            reports := { id := db.nextReportId, reporterId := userId,
                         postId := some pid, commentId := none,
                         reason := reason } :: db.reports,
            nextReportId := db.nextReportId + 1 }
          if REPORT_THRESHOLD ≤ countPostReports db1 pid then
            (Outcome.created, { db1 with posts := setPostHidden db1.posts pid true })
          else (Outcome.created, db1)
  else if truthy commentId then
    let cid := commentId.getD 0
    match findComment db cid with
    | none => (Outcome.notFound, db)
    | some comment =>
        if comment.authorId = userId then (Outcome.selfInteraction, db)
        else if (findReportByUserComment db userId cid).isSome then
          (Outcome.conflict, db)
        else
          let db1 := { db with
            reports := { id := db.nextReportId, reporterId := userId,
                         postId := none, commentId := some cid,
                         reason := reason } :: db.reports,
            nextReportId := db.nextReportId + 1 }
          if REPORT_THRESHOLD ≤ countCommentReports db1 cid then
            (Outcome.created,
              { db1 with comments := setCommentHidden db1.comments cid true })
          else (Outcome.created, db1)
  else (Outcome.internalError, db)

/-- Shallow embedding of `dismissReports` (the admin controller): look up the
report, then in one transaction delete every report for its target and clear
`isHidden`. `if (report.postId)` and `else if (report.commentId)` are JS
truthiness tests; a report with both fields falsy commits an empty
transaction and still responds 200. A missing target row would make
`tx.post.update` / `tx.comment.update` throw, rolling back to the generic
500. -/
def dismissReports (db : Db) (reportId : Int) : Outcome × Db :=
  match findReportById db reportId with
  | none => (Outcome.notFound, db)
  | some report =>
      if truthy report.postId then
        let pid := report.postId.getD 0
        if (findPost db pid).isNone then (Outcome.internalError, db)
        else
          (Outcome.ok,
            { db with
              reports := db.reports.filter (fun r => !(r.postId == some pid)),
              posts := setPostHidden db.posts pid false })
      else if truthy report.commentId then
        let cid := report.commentId.getD 0
        if (findComment db cid).isNone then (Outcome.internalError, db)
        else
          (Outcome.ok,
            { db with
              reports := db.reports.filter (fun r => !(r.commentId == some cid)),
              comments := setCommentHidden db.comments cid false })
      else (Outcome.ok, db)

/-- A Prisma `where` fragment produced by the moderation visibility helpers:
either the empty filter or `{ isHidden: false }`, written as text without
braces here. -/
inductive ModFilter where
  | all
  | notHidden
deriving DecidableEq

/-- Whether a post satisfies a visibility filter fragment. -/
def ModFilter.keepsPost : ModFilter → Post → Bool
  | ModFilter.all, _ => true
  | ModFilter.notHidden, p => !p.isHidden

/-- Shallow embedding of `getPostVisibilityFilter` (moderation utilities):
admins and the content's own author get the empty filter, every other viewer
gets `{ isHidden: false }`. -/
def getPostVisibilityFilter (user : Option User) (authorId : Option String) :
    ModFilter :=
  match user with
  | some u =>
      if u.isAdmin then ModFilter.all
      else
        match authorId with
        | some aid => if u.id = aid then ModFilter.all else ModFilter.notHidden
        | none => ModFilter.notHidden
  | none => ModFilter.notHidden

/-- The `where` clause `listPosts` (src/src/controllers/postsController.js)
actually builds: soft-deleted posts excluded, optional topic and author
filters, and no viewer-dependent part at all. -/
def listPostsWhere (topicId : Option Int) (authorId : Option String) (p : Post) :
    Bool :=
  p.deletedAt == none &&
  (match topicId with
   | some t => p.primaryTopicId == t
   | none => true) &&
  (match authorId with
   | some a => p.authorId == a
   | none => true)

/-- The `where` clause of `getPostById`: the requested id and not
soft-deleted, independent of any viewer. -/
def getPostByIdWhere (pid : Int) (p : Post) : Bool :=
  p.id == pid && p.deletedAt == none

/-- Embeds `prisma.post.findFirst` in `getPostById`; `none` becomes a 404. -/
def getPostById (db : Db) (pid : Int) : Option Post :=
  db.posts.find? (getPostByIdWhere pid)

/-- One `express-rate-limit` window for one identity key: hit count and the
epoch millisecond at which the window resets. -/
structure RateWindow where
  count : Nat
  resetTime : Nat
deriving DecidableEq

/-- The options this engine passes to `rateLimit(...)`: window length,
`max`, and whether responses with status ≥ 400 are uncounted afterwards. -/
structure LimiterConfig where
  windowMs : Nat
  max : Nat
  skipFailedRequests : Bool
deriving DecidableEq

/-- The admission decision for one request; a denial carries the
`retryAfter` value the 429 handler puts in the response body. -/
inductive LimitDecision where
  | allowed
  | limited (retryAfter : Nat)
deriving DecidableEq

/-- Embeds `Math.ceil((req.rateLimit.resetTime.getTime() - Date.now()) / 1000)`: the
computation of `retryAfter` in the current handlers (registerLimiter,
loginLimiter, and the per-operation limiters of the same revision). -/
def retryAfterSecondsNow (resetTime now : Nat) : Nat :=
  (resetTime - now + 999) / 1000

/-- Embeds `Math.ceil(req.rateLimit.resetTime.getTime() / 1000)`: the computation of
`retryAfter` in the earlier revision's handlers (`authLimiter` and the
limiters defined alongside it) — the reset instant as an absolute epoch
second, with no subtraction of the current time. -/
def legacyRetryAfter (resetTime : Nat) : Nat :=
  (resetTime + 999) / 1000

/-- Specification-side comparison definition: the integer number of seconds
remaining until the current window resets (the value a denied caller is to
be told), rounded up to whole seconds. -/
def secondsUntilReset (resetTime now : Nat) : Nat :=
  (resetTime - now + 999) / 1000

/-- The fixed-window state a request observes: an expired or absent window
is replaced by a fresh one ending `windowMs` from now. -/
def refreshWindow (cfg : LimiterConfig) (w : Option RateWindow) (now : Nat) :
    RateWindow :=
  match w with
  | some win => if now < win.resetTime then win
                else { count := 0, resetTime := now + cfg.windowMs }
  | none => { count := 0, resetTime := now + cfg.windowMs }

/-- One request through a current-revision limiter and (when admitted) its
wrapped operation, which finishes with HTTP status `opStatus`: the hit is
counted, a count above `max` is denied with the handler's `retryAfter`, and
with `skipFailedRequests` a response of status ≥ 400 is uncounted again. -/
def limiterStep (cfg : LimiterConfig) (w : Option RateWindow) (now : Nat)
    (opStatus : Nat) : LimitDecision × RateWindow :=
  let w0 := refreshWindow cfg w now
  let w1 : RateWindow := { w0 with count := w0.count + 1 }
  if cfg.max < w1.count then
    (LimitDecision.limited (retryAfterSecondsNow w1.resetTime now), w1)
  else if cfg.skipFailedRequests ∧ 400 ≤ opStatus then
    (LimitDecision.allowed, { w1 with count := w1.count - 1 })
  else (LimitDecision.allowed, w1)

/-- One request through an earlier-revision limiter: identical admission, but
a denial reports `legacyRetryAfter` — the epoch second of the reset instant. -/
def limiterStepLegacy (cfg : LimiterConfig) (w : Option RateWindow) (now : Nat)
    (opStatus : Nat) : LimitDecision × RateWindow :=
  let w0 := refreshWindow cfg w now
  let w1 : RateWindow := { w0 with count := w0.count + 1 }
  if cfg.max < w1.count then
    (LimitDecision.limited (legacyRetryAfter w1.resetTime), w1)
  else if cfg.skipFailedRequests ∧ 400 ≤ opStatus then
    (LimitDecision.allowed, { w1 with count := w1.count - 1 })
  else (LimitDecision.allowed, w1)

/-- Config of `registerLimiter`: 10 per 15 minutes, failed requests still counted. -/
def registerLimiter : LimiterConfig :=
  { windowMs := 900000, max := 10, skipFailedRequests := false }

/-- Config of `loginLimiter`: 20 per 15 minutes, failed requests still counted. -/
def loginLimiter : LimiterConfig :=
  { windowMs := 900000, max := 20, skipFailedRequests := false }

/-- Config of `voteLimiter`: 100 per hour, failed requests uncounted. -/
def voteLimiter : LimiterConfig :=
  { windowMs := 3600000, max := 100, skipFailedRequests := true }

/-- Config of `createPostLimiter`: 30 per hour, failed requests uncounted. -/
def createPostLimiter : LimiterConfig :=
  { windowMs := 3600000, max := 30, skipFailedRequests := true }

/-- Config of `createCommentLimiter`: 60 per hour, failed requests uncounted. -/
def createCommentLimiter : LimiterConfig :=
  { windowMs := 3600000, max := 60, skipFailedRequests := true }

/-- Config of `saveLimiter`: 30 per hour, failed requests uncounted. -/
def saveLimiter : LimiterConfig :=
  { windowMs := 3600000, max := 30, skipFailedRequests := true }

/-- Config of `updateLimiter`: 30 per hour, failed requests uncounted. -/
def updateLimiter : LimiterConfig :=
  { windowMs := 3600000, max := 30, skipFailedRequests := true }

/-- Config of `deleteLimiter` (current revision): 30 per hour, failed requests uncounted. -/
def deleteLimiter : LimiterConfig :=
  { windowMs := 3600000, max := 30, skipFailedRequests := true }

/-- Config of `reportLimiter`: 10 per hour, failed requests uncounted. -/
def reportLimiter : LimiterConfig :=
  { windowMs := 3600000, max := 10, skipFailedRequests := true }

/-- Config of `accountSettingsLimiter`: 30 per hour, failed requests uncounted. -/
def accountSettingsLimiter : LimiterConfig :=
  { windowMs := 3600000, max := 30, skipFailedRequests := true }

/-- Config of `contactLimiter`: 5 per hour, failed requests uncounted. -/
def contactLimiter : LimiterConfig :=
  { windowMs := 3600000, max := 5, skipFailedRequests := true }

namespace V1

/-- The earlier revision's `authLimiter`: 5 per 15 minutes, no
`skipFailedRequests`, and the handler that reports `legacyRetryAfter`. -/
def authLimiter : LimiterConfig :=
  { windowMs := 900000, max := 5, skipFailedRequests := false }

end V1

/-- Fixture: an ordinary author. -/
def alice : User :=
  { id := "alice", learningScore := 10, isAdmin := false, role := "USER" }

/-- Fixture: an ordinary voter. -/
def bob : User :=
  { id := "bob", learningScore := 3, isAdmin := false, role := "USER" }

/-- Fixture: an administrator. -/
def rootAdmin : User :=
  { id := "root", learningScore := 0, isAdmin := true, role := "USER" }

/-- Fixture: a live post by alice. -/
def post1 : Post :=
  { id := 1, authorId := "alice", primaryTopicId := 7, isHidden := false,
    deletedAt := none }

/-- Fixture: a soft-deleted post by alice. -/
def post2 : Post :=
  { id := 2, authorId := "alice", primaryTopicId := 7, isHidden := false,
    deletedAt := some 5000 }

/-- Fixture: a suppressed (auto-hidden) but not deleted post by alice. -/
def post3 : Post :=
  { id := 3, authorId := "alice", primaryTopicId := 7, isHidden := true,
    deletedAt := none }

/-- Fixture: a comment by alice. -/
def comment1 : Comment :=
  { id := 1, authorId := "alice", isHidden := false }

/-- Fixture: a report on a post. -/
def mkReport (i : Int) (who : String) (pid : Int) : Report :=
  { id := i, reporterId := who, postId := some pid, commentId := none,
    reason := "SPAM" }

/-- Fixture: a store with alice's live post and comment and no votes. -/
def dbBase : Db :=
  { users := [alice, bob], posts := [post1], comments := [comment1],
    votes := [], reports := [], nextVoteId := 100, nextReportId := 100 }

/-- Fixture: the transaction-time store for the racing duplicate add — a
concurrent identical request committed vote 99 after `dbBase` was read. -/
def dbRaced : Db :=
  { dbBase with
    votes := [{ id := 99, userId := "bob", postId := some 1, commentId := none }] }

/-- Fixture: bob's existing vote on the soft-deleted `post2`. -/
def voteOnDeleted : Vote :=
  { id := 50, userId := "bob", postId := some 2, commentId := none }

/-- Fixture: a store where bob's vote targets the soft-deleted `post2`. -/
def dbDeletedTarget : Db :=
  { users := [alice, bob], posts := [post2], comments := [],
    votes := [voteOnDeleted], reports := [], nextVoteId := 100,
    nextReportId := 100 }

/-- Fixture: alice's post already reported by four distinct reporters. -/
def dbFourReports : Db :=
  { users := [alice], posts := [post1], comments := [], votes := [],
    reports := [mkReport 4 "r4" 1, mkReport 3 "r3" 1, mkReport 2 "r2" 1,
                mkReport 1 "r1" 1],
    nextVoteId := 100, nextReportId := 5 }

/-- Fixture: the suppressed `post3` carrying three reports, for dismiss. -/
def dbSuppressed : Db :=
  { users := [alice, rootAdmin], posts := [post3], comments := [], votes := [],
    reports := [mkReport 11 "r1" 3, mkReport 12 "r2" 3, mkReport 13 "r3" 3],
    nextVoteId := 100, nextReportId := 14 }

/-- Fixture: a report on a comment. -/
def mkCommentReport (i : Int) (who : String) (cid : Int) : Report :=
  { id := i, reporterId := who, postId := none, commentId := some cid,
    reason := "SPAM" }

/-- Fixture: alice's comment already reported by four distinct reporters. -/
def dbFourCommentReports : Db :=
  { users := [alice], posts := [], comments := [comment1], votes := [],
    reports := [mkCommentReport 4 "r4" 1, mkCommentReport 3 "r3" 1,
                mkCommentReport 2 "r2" 1, mkCommentReport 1 "r1" 1],
    nextVoteId := 100, nextReportId := 5 }

/-- Fixture: a rate window one minute before reset with its budget used up. -/
def windowNearReset : RateWindow :=
  { count := 5, resetTime := 960000 }

/-- Fixture: a register-limiter window at its cap. -/
def windowAtCap : RateWindow :=
  { count := 10, resetTime := 900000 }

theorem find?_map_of_pred {α : Type} (f : α → α) (p : α → Bool) (l : List α)
    (hf : ∀ a, p (f a) = p a) : (l.map f).find? p = (l.find? p).map f := by
  induction l with
  | nil => rfl
  | cons a l ih =>
      cases h : p a with
      | true =>
          have hfa : p (f a) = true := by rw [hf]; exact h
          simp [List.find?_cons, h, hfa]
      | false =>
          have hfa : p (f a) = false := by rw [hf]; exact h
          simp [List.find?_cons, h, hfa, ih]

theorem find?_updateUserScore (users : List User) (uid tid : String) (d : Int) :
    (updateUserScore users uid d).find? (fun u => u.id == tid)
      = (users.find? (fun u => u.id == tid)).map
          (fun u => if u.id == uid then { u with learningScore := u.learningScore + d }
                    else u) := by
  apply find?_map_of_pred
  intro a
  cases h : a.id == uid <;> simp [h]

theorem find?_setPostHidden (posts : List Post) (pid tid : Int) (b : Bool) :
    (setPostHidden posts pid b).find? (fun p => p.id == tid)
      = (posts.find? (fun p => p.id == tid)).map
          (fun p => if p.id == pid then { p with isHidden := b } else p) := by
  apply find?_map_of_pred
  intro a
  cases h : a.id == pid <;> simp [h]

theorem find?_setCommentHidden (comments : List Comment) (cid tid : Int) (b : Bool) :
    (setCommentHidden comments cid b).find? (fun c => c.id == tid)
      = (comments.find? (fun c => c.id == tid)).map
          (fun c => if c.id == cid then { c with isHidden := b } else c) := by
  apply find?_map_of_pred
  intro a
  cases h : a.id == cid <;> simp [h]

theorem filter_not_filter {α : Type} (p : α → Bool) (l : List α) :
    (l.filter (fun a => !(p a))).filter p = [] := by
  induction l with
  | nil => rfl
  | cons a l ih => cases h : p a <;> simp [List.filter_cons, h, ih]

theorem refreshWindow_now_lt (cfg : LimiterConfig) (w : Option RateWindow)
    (now : Nat) (hmax : 1 ≤ cfg.max)
    (h : cfg.max < (refreshWindow cfg w now).count + 1) :
    now < (refreshWindow cfg w now).resetTime := by
  cases w with
  | none => simp [refreshWindow] at h; omega
  | some win =>
      by_cases hlt : now < win.resetTime
      · simp [refreshWindow, hlt]
      · simp [refreshWindow, hlt] at h; omega

/-- Claim C1: the spec requires `addVote` to translate a storage-level
uniqueness violation into the `Conflict` outcome. The code does not: when the
pre-insert duplicate check reads a snapshot without the vote (`dbBase`) but a
racing identical request has already committed it (`dbRaced`), the
constraint violation raised inside the transaction escapes to the generic
catch and is surfaced as a 500 internal failure, while the sequential
duplicate path does return `conflict`. -/
theorem c1_race_duplicate_internal_error :
    (addVoteRacy dbBase dbRaced "bob" (some 1) none).1 = Outcome.internalError ∧
    (addVote dbRaced "bob" (some 1) none).1 = Outcome.conflict ∧
    Outcome.internalError ≠ Outcome.conflict := by decide

/-- Claim C3 counterexample: the suppressed, non-deleted `post3` passes the
anonymous `listPosts` where-clause and is returned by `getPostById`, so it is
not absent from an anonymous caller's list/detail results as the claim
states. -/
theorem c3_suppressed_visible_to_anonymous :
    post3.isHidden = true ∧ post3.deletedAt = none ∧
    listPostsWhere none none post3 = true ∧
    getPostById dbSuppressed 3 = some post3 := by decide

/-- Claim C3 (amended): a deleted post is absent from every viewer's list and
detail results, but a suppressed, non-deleted post is present in the list and
detail results of all three viewers — the endpoints' where-clauses take no
viewer and never test `isHidden`. The unused helper `getPostVisibilityFilter`
would restrict suppressed posts to admins and the post's own author. -/
theorem c3_visibility_amended :
    (∀ p : Post, p.deletedAt = none → listPostsWhere none none p = true) ∧
    (∀ (p : Post) (t : Option Int) (a : Option String),
        p.deletedAt ≠ none → listPostsWhere t a p = false) ∧
    (∀ p : Post, p.deletedAt = none → getPostByIdWhere p.id p = true) ∧
    (∀ (p : Post) (pid : Int), p.deletedAt ≠ none → getPostByIdWhere pid p = false) ∧
    (∀ a : Option String, getPostVisibilityFilter none a = ModFilter.notHidden) ∧
    (∀ (u : User) (a : Option String), u.isAdmin = true →
        getPostVisibilityFilter (some u) a = ModFilter.all) ∧
    (∀ u : User, u.isAdmin = false →
        getPostVisibilityFilter (some u) (some u.id) = ModFilter.all) ∧
    (∀ p : Post, ModFilter.notHidden.keepsPost p = !p.isHidden) := by
  refine ⟨?_, ?_, ?_, ?_, ?_, ?_, ?_, ?_⟩
  · intro p h; simp [listPostsWhere, h]
  · intro p t a h
    cases hd : p.deletedAt with
    | none => exact absurd hd h
    | some x => simp [listPostsWhere, hd]
  · intro p h; simp [getPostByIdWhere, h]
  · intro p pid h
    cases hd : p.deletedAt with
    | none => exact absurd hd h
    | some x => simp [getPostByIdWhere, hd]
  · intro a; rfl
  · intro u a h; simp [getPostVisibilityFilter, h]
  · intro u h; simp [getPostVisibilityFilter, h]
  · intro p; rfl

theorem c3_visibility_amended_witness :
    listPostsWhere none none post3 = true ∧
    listPostsWhere none none post2 = false ∧
    getPostVisibilityFilter (some rootAdmin) none = ModFilter.all ∧
    getPostVisibilityFilter (some alice) (some alice.id) = ModFilter.all :=
  ⟨c3_visibility_amended.1 post3 (by decide),
   c3_visibility_amended.2.1 post2 none none (by decide),
   c3_visibility_amended.2.2.2.2.2.1 rootAdmin none (by decide),
   c3_visibility_amended.2.2.2.2.2.2.1 alice (by decide)⟩

/-- Claim C5 counterexample: `registerLimiter` is configured without
`skipFailedRequests`, so a registration attempt that is admitted and then
fails (here a 409 duplicate-email response) still consumes one unit of the
caller's budget, contradicting "only requests that ultimately succeed consume
budget" for that operation class. -/
theorem c5_failed_register_consumes_quota :
    registerLimiter.skipFailedRequests = false ∧
    (limiterStep registerLimiter none 0 409).1 = LimitDecision.allowed ∧
    (refreshWindow registerLimiter none 0).count = 0 ∧
    (limiterStep registerLimiter none 0 409).2.count = 1 := by decide

/-- Claim C5 (amended): for every limiter configured with
`skipFailedRequests` — the vote, post, comment, save, update, delete, report,
account-settings and contact classes — an admitted request whose wrapped
operation fails (status ≥ 400) leaves the window count unchanged; the
registration and login limiters lack the flag and count every admitted
request, failed or not. -/
theorem c5_quota_amended :
    (∀ (cfg : LimiterConfig) (w : Option RateWindow) (now st : Nat),
        cfg.skipFailedRequests = true → 400 ≤ st →
        (limiterStep cfg w now st).1 = LimitDecision.allowed →
        (limiterStep cfg w now st).2.count = (refreshWindow cfg w now).count) ∧
    (∀ (w : Option RateWindow) (now st : Nat),
        (limiterStep registerLimiter w now st).1 = LimitDecision.allowed →
        (limiterStep registerLimiter w now st).2.count
          = (refreshWindow registerLimiter w now).count + 1) ∧
    voteLimiter.skipFailedRequests = true ∧
    createPostLimiter.skipFailedRequests = true ∧
    createCommentLimiter.skipFailedRequests = true ∧
    saveLimiter.skipFailedRequests = true ∧
    updateLimiter.skipFailedRequests = true ∧
    deleteLimiter.skipFailedRequests = true ∧
    reportLimiter.skipFailedRequests = true ∧
    accountSettingsLimiter.skipFailedRequests = true ∧
    contactLimiter.skipFailedRequests = true ∧
    registerLimiter.skipFailedRequests = false ∧
    loginLimiter.skipFailedRequests = false := by
  refine ⟨?_, ?_, rfl, rfl, rfl, rfl, rfl, rfl, rfl, rfl, rfl, rfl, rfl⟩
  · intro cfg w now st hskip hst hallow
    by_cases h : cfg.max < (refreshWindow cfg w now).count + 1
    · simp [limiterStep, h] at hallow
    · simp [limiterStep, h, hskip, hst]
  · intro w now st hallow
    by_cases h : registerLimiter.max < (refreshWindow registerLimiter w now).count + 1
    · simp [limiterStep, h] at hallow
    · have hskip : registerLimiter.skipFailedRequests = false := rfl
      simp [limiterStep, h, hskip]

theorem c5_quota_amended_witness :
    (limiterStep voteLimiter none 0 404).2.count
      = (refreshWindow voteLimiter none 0).count ∧
    (limiterStep registerLimiter none 0 409).2.count
      = (refreshWindow registerLimiter none 0).count + 1 :=
  ⟨c5_quota_amended.1 voteLimiter none 0 404 (by decide) (by decide) (by decide),
   c5_quota_amended.2.1 none 0 409 (by decide)⟩

/-- Claim C8 counterexample: a request denied by the earlier revision's
`authLimiter` one minute before the window resets is told
`retryAfter = 960` — the epoch second of the reset instant,
`Math.ceil(resetTime / 1000)` — while the integer seconds remaining until
the reset is 60, so the reported value is not the seconds remaining. -/
theorem c8_legacy_retry_after_not_remaining :
    (limiterStepLegacy V1.authLimiter (some windowNearReset) 900000 200).1
      = LimitDecision.limited 960 ∧
    secondsUntilReset 960000 900000 = 60 ∧
    (960 : Nat) ≠ 60 := by decide

/-- Claim C8 (amended): for the current revision's limiters (registration,
login and the per-operation classes), every denial reports a `retryAfter`
that is strictly positive, equals the integer (rounded-up) seconds until the
window resets, and brackets the true remaining milliseconds; the earlier
revision's handlers instead report the absolute epoch second of the reset
instant. -/
theorem c8_retry_seconds_amended (cfg : LimiterConfig) (w : Option RateWindow)
    (now st ra : Nat) (hmax : 1 ≤ cfg.max)
    (hden : (limiterStep cfg w now st).1 = LimitDecision.limited ra) :
    0 < ra ∧
    now < (limiterStep cfg w now st).2.resetTime ∧
    ra = secondsUntilReset (limiterStep cfg w now st).2.resetTime now ∧
    (limiterStep cfg w now st).2.resetTime - now ≤ 1000 * ra ∧
    1000 * (ra - 1) < (limiterStep cfg w now st).2.resetTime - now := by
  by_cases h : cfg.max < (refreshWindow cfg w now).count + 1
  · have hlt := refreshWindow_now_lt cfg w now hmax h
    simp only [limiterStep, h, if_true, reduceIte] at hden ⊢
    have hra : ra = retryAfterSecondsNow (refreshWindow cfg w now).resetTime now := by
      simpa using hden.symm
    subst hra
    refine ⟨?_, hlt, rfl, ?_, ?_⟩
    · simp only [retryAfterSecondsNow]
      omega
    · simp only [retryAfterSecondsNow]
      omega
    · simp only [retryAfterSecondsNow]
      omega
  · exfalso
    by_cases hs : cfg.skipFailedRequests ∧ 400 ≤ st
    · simp [limiterStep, h, hs] at hden
    · simp [limiterStep, h, hs] at hden

theorem c8_retry_seconds_amended_witness :
    0 < 800 ∧
    100000 < (limiterStep registerLimiter (some windowAtCap) 100000 200).2.resetTime ∧
    800 = secondsUntilReset
        (limiterStep registerLimiter (some windowAtCap) 100000 200).2.resetTime 100000 ∧
    (limiterStep registerLimiter (some windowAtCap) 100000 200).2.resetTime - 100000
      ≤ 1000 * 800 ∧
    1000 * (800 - 1)
      < (limiterStep registerLimiter (some windowAtCap) 100000 200).2.resetTime - 100000 :=
  c8_retry_seconds_amended registerLimiter (some windowAtCap) 100000 200 800
    (by decide) (by decide)

/-- Claim C7: voting on one's own content always yields the 403
self-interaction outcome, for posts and for comments, whatever votes already
exist in the store — the self check runs before the duplicate-vote check and
does not read the votes table. -/
theorem c7_self_vote_rejected :
    (∀ (db : Db) (pid : Int) (post : Post), pid ≠ 0 →
        findPost db pid = some post → post.deletedAt = none →
        (addVote db post.authorId (some pid) none).1 = Outcome.selfInteraction) ∧
    (∀ (db : Db) (cid : Int) (c : Comment), cid ≠ 0 →
        findComment db cid = some c →
        (addVote db c.authorId none (some cid)).1 = Outcome.selfInteraction) := by
  constructor
  · intro db pid post hpid hfind hdel
    simp [addVote, addVoteRacy, truthy, parsedId, hpid, hfind, hdel]
  · intro db cid c hcid hfind
    simp [addVote, addVoteRacy, truthy, parsedId, hcid, hfind]

theorem c7_self_vote_rejected_witness :
    (addVote dbBase "alice" (some 1) none).1 = Outcome.selfInteraction ∧
    (addVote dbBase "alice" none (some 1)).1 = Outcome.selfInteraction :=
  ⟨c7_self_vote_rejected.1 dbBase 1 post1 (by decide) (by decide) (by decide),
   c7_self_vote_rejected.2 dbBase 1 comment1 (by decide) (by decide)⟩

/-- Claim C9: an id of 0 is falsy under the truthiness-based target checks of
`addVote`: a request with `postId = 0` and no `commentId` fails the
exactly-one-target validation (400 invalid target, not 404), while a request
with `postId = 0` and a nonzero `commentId` behaves exactly like a
comment-only request — `postId = 0` parses to `null` and the comment branch
runs, so the request is not rejected for naming two targets. -/
theorem c9_zero_id_truthiness :
    (∀ (db : Db) (v : String),
        (addVote db v (some 0) none).1 = Outcome.invalidTarget) ∧
    (∀ (db : Db) (v : String) (cid : Int), cid ≠ 0 →
        addVote db v (some 0) (some cid) = addVote db v none (some cid)) ∧
    (∀ (db : Db) (v : String) (cid : Int), cid ≠ 0 →
        (addVote db v (some 0) (some cid)).1 ≠ Outcome.invalidTarget) := by
  refine ⟨?_, ?_, ?_⟩
  · intro db v; rfl
  · intro db v cid h; rfl
  · intro db v cid h
    have e : addVote db v (some 0) (some cid) = addVote db v none (some cid) := rfl
    rw [e]
    have ht : truthy (some cid) = true := by simp [truthy, h]
    simp only [addVote, addVoteRacy, truthy, parsedId, ht]
    simp only [Bool.not_true, Bool.not_false, Bool.true_and, Bool.false_and,
      Bool.and_false, Bool.or_false, Bool.false_or, reduceIte]
    cases hfc : findComment db cid with
    | none => simp [hfc, h]
    | some c =>
        by_cases hs : c.authorId = v
        · simp [hfc, hs, h]
        · cases hvv : findVoteByUserComment db v cid with
          | some vv => simp [hfc, hs, hvv, h]
          | none =>
              by_cases hn : (findUser db c.authorId).isNone
              · simp [hfc, hs, hvv, hn, h]
              · simp [hfc, hs, hvv, hn, h]

theorem c9_zero_id_truthiness_witness :
    (addVote dbBase "bob" (some 0) none).1 = Outcome.invalidTarget ∧
    addVote dbBase "bob" (some 0) (some 1) = addVote dbBase "bob" none (some 1) ∧
    (addVote dbBase "bob" (some 0) (some 1)).1 ≠ Outcome.invalidTarget :=
  ⟨c9_zero_id_truthiness.1 dbBase "bob",
   c9_zero_id_truthiness.2.1 dbBase "bob" 1 (by decide),
   c9_zero_id_truthiness.2.2 dbBase "bob" 1 (by decide)⟩

/-- Claim C10: removing one's own vote succeeds even when the referenced post
has since been soft-deleted — `removeVote` never reads `deletedAt` — and the
post author's reputation counter is still decremented by 1. -/
theorem c10_remove_vote_on_deleted_post (db : Db) (v : String) (vid pid : Int)
    (vt : Vote) (post : Post) (u : User) (ts : Int)
    (hv : findVoteById db vid = some vt)
    (hown : vt.userId = v)
    (hpid : vt.postId = some pid)
    (hpost : findPost db pid = some post)
    (hdel : post.deletedAt = some ts)
    (hu : findUser db post.authorId = some u) :
    (removeVote db v vid).1 = Outcome.removed ∧
    (findUser (removeVote db v vid).2 post.authorId).map User.learningScore
      = some (u.learningScore - 1) := by
  have hu' : db.users.find? (fun x => x.id == post.authorId) = some u := hu
  have hid : (u.id == post.authorId) = true := by
    have h2 := List.find?_some hu'
    simpa using h2
  have hstep : removeVote db v vid =
      (Outcome.removed,
        { db with
          votes := db.votes.filter (fun w => w.id != vid),
          users := updateUserScore db.users post.authorId (-1) }) := by
    simp [removeVote, hv, hown, hpid, hpost, hu]
  rw [hstep]
  refine ⟨rfl, ?_⟩
  show ((updateUserScore db.users post.authorId (-1)).find?
      (fun u => u.id == post.authorId)).map User.learningScore
    = some (u.learningScore - 1)
  rw [find?_updateUserScore]
  have : db.users.find? (fun u => u.id == post.authorId) = some u := hu
  rw [this]
  have hideq : u.id = post.authorId := by simpa using hid
  simp [hideq]
  omega

theorem c10_remove_vote_on_deleted_post_witness :
    (removeVote dbDeletedTarget "bob" 50).1 = Outcome.removed ∧
    (findUser (removeVote dbDeletedTarget "bob" 50).2 post2.authorId).map
        User.learningScore = some (alice.learningScore - 1) :=
  c10_remove_vote_on_deleted_post dbDeletedTarget "bob" 50 2 voteOnDeleted post2
    alice 5000 (by decide) (by decide) (by decide) (by decide) (by decide) (by decide)

theorem addVote_post_created (db : Db) (v : String) (pid : Int) (post : Post)
    (u : User)
    (hpid : pid ≠ 0)
    (hpost : findPost db pid = some post)
    (hdel : post.deletedAt = none)
    (hself : post.authorId ≠ v)
    (hnov : findVoteByUserPost db v pid = none)
    (hu : findUser db post.authorId = some u) :
    addVote db v (some pid) none =
      (Outcome.created,
        { db with
          votes := { id := db.nextVoteId, userId := v, postId := some pid,
                     commentId := none } :: db.votes,
          users := updateUserScore db.users post.authorId 1,
          nextVoteId := db.nextVoteId + 1 }) := by
  have hself' : ¬post.authorId = v := hself
  simp [addVote, addVoteRacy, truthy, parsedId, hpid, hpost, hdel, hself', hnov, hu]

theorem addVote_comment_created (db : Db) (v : String) (cid : Int) (c : Comment)
    (u : User)
    (hcid : cid ≠ 0)
    (hc : findComment db cid = some c)
    (hself : c.authorId ≠ v)
    (hnov : findVoteByUserComment db v cid = none)
    (hu : findUser db c.authorId = some u) :
    addVote db v none (some cid) =
      (Outcome.created,
        { db with
          votes := { id := db.nextVoteId, userId := v, postId := none,
                     commentId := some cid } :: db.votes,
          users := updateUserScore db.users c.authorId 1,
          nextVoteId := db.nextVoteId + 1 }) := by
  have hself' : ¬c.authorId = v := hself
  simp [addVote, addVoteRacy, truthy, parsedId, hcid, hc, hself', hnov, hu]

/-- Claim C4: for a voter distinct from the item's author — the item a post
or a comment — the first add succeeds (201) and, in the same step as the
vote insert, raises the author's reputation counter from its original value
to original + 1; a second identical add returns the 409 conflict; removing
the created vote succeeds and returns the counter exactly to its original
value. -/
theorem c4_vote_reputation_roundtrip :
    (∀ (db : Db) (v : String) (pid : Int) (post : Post) (u : User),
        pid ≠ 0 →
        findPost db pid = some post →
        post.deletedAt = none →
        post.authorId ≠ v →
        findVoteByUserPost db v pid = none →
        findUser db post.authorId = some u →
        (addVote db v (some pid) none).1 = Outcome.created ∧
        (findUser (addVote db v (some pid) none).2 post.authorId).map
            User.learningScore = some (u.learningScore + 1) ∧
        (addVote (addVote db v (some pid) none).2 v (some pid) none).1
          = Outcome.conflict ∧
        (removeVote (addVote db v (some pid) none).2 v db.nextVoteId).1
          = Outcome.removed ∧
        (findUser (removeVote (addVote db v (some pid) none).2 v
            db.nextVoteId).2 post.authorId).map User.learningScore
          = some u.learningScore) ∧
    (∀ (db : Db) (v : String) (cid : Int) (c : Comment) (u : User),
        cid ≠ 0 →
        findComment db cid = some c →
        c.authorId ≠ v →
        findVoteByUserComment db v cid = none →
        findUser db c.authorId = some u →
        (addVote db v none (some cid)).1 = Outcome.created ∧
        (findUser (addVote db v none (some cid)).2 c.authorId).map
            User.learningScore = some (u.learningScore + 1) ∧
        (addVote (addVote db v none (some cid)).2 v none (some cid)).1
          = Outcome.conflict ∧
        (removeVote (addVote db v none (some cid)).2 v db.nextVoteId).1
          = Outcome.removed ∧
        (findUser (removeVote (addVote db v none (some cid)).2 v
            db.nextVoteId).2 c.authorId).map User.learningScore
          = some u.learningScore) := by
  constructor
  · intro db v pid post u hpid hpost hdel hself hnov hu
    have hu' : db.users.find? (fun x => x.id == post.authorId) = some u := hu
    have hid : (u.id == post.authorId) = true := by
      have h2 := List.find?_some hu'
      simpa using h2
    have hideq : u.id = post.authorId := by simpa using hid
    set nv : Vote := { id := db.nextVoteId, userId := v, postId := some pid,
                       commentId := none } with hnv
    set db1 : Db := ({ db with
      votes := nv :: db.votes,
      users := updateUserScore db.users post.authorId 1,
      nextVoteId := db.nextVoteId + 1 } : Db) with hdb1
    have hstep : addVote db v (some pid) none = (Outcome.created, db1) :=
      addVote_post_created db v pid post u hpid hpost hdel hself hnov hu
    have hpost1 : findPost db1 pid = some post := hpost
    have hu1 : findUser db1 post.authorId
        = some { u with learningScore := u.learningScore + 1 } := by
      show (updateUserScore db.users post.authorId 1).find?
          (fun x => x.id == post.authorId) = _
      rw [find?_updateUserScore, hu']
      simp [hideq]
    have hdup1 : findVoteByUserPost db1 v pid = some nv := by
      show (nv :: db.votes).find?
          (fun w => w.userId == v && w.postId == some pid) = some nv
      simp [hnv, List.find?_cons]
    have hvid1 : findVoteById db1 db.nextVoteId = some nv := by
      show (nv :: db.votes).find? (fun w => w.id == db.nextVoteId) = some nv
      simp [hnv, List.find?_cons]
    have hrem : removeVote db1 v db.nextVoteId =
        (Outcome.removed,
          { db1 with
            votes := db1.votes.filter (fun w => w.id != db.nextVoteId),
            users := updateUserScore db1.users post.authorId (-1) }) := by
      simp [removeVote, hvid1, hnv, hpost1, hu1]
    rw [hstep]
    refine ⟨rfl, ?_, ?_, ?_, ?_⟩
    · show (findUser db1 post.authorId).map User.learningScore = _
      rw [hu1]
      rfl
    · show (addVote db1 v (some pid) none).1 = Outcome.conflict
      simp [addVote, addVoteRacy, truthy, parsedId, hpid, hpost1, hdel, hself,
        hdup1]
    · show (removeVote db1 v db.nextVoteId).1 = Outcome.removed
      rw [hrem]
    · show (findUser (removeVote db1 v db.nextVoteId).2 post.authorId).map
          User.learningScore = some u.learningScore
      rw [hrem]
      show ((updateUserScore db1.users post.authorId (-1)).find?
          (fun x => x.id == post.authorId)).map User.learningScore
        = some u.learningScore
      rw [find?_updateUserScore]
      have hx : db1.users.find? (fun x => x.id == post.authorId)
          = some { u with learningScore := u.learningScore + 1 } := hu1
      rw [hx]
      simp [hideq]
  · intro db v cid c u hcid hc hself hnov hu
    have hu' : db.users.find? (fun x => x.id == c.authorId) = some u := hu
    have hid : (u.id == c.authorId) = true := by
      have h2 := List.find?_some hu'
      simpa using h2
    have hideq : u.id = c.authorId := by simpa using hid
    set nv : Vote := { id := db.nextVoteId, userId := v, postId := none,
                       commentId := some cid } with hnv
    set db1 : Db := ({ db with
      votes := nv :: db.votes,
      users := updateUserScore db.users c.authorId 1,
      nextVoteId := db.nextVoteId + 1 } : Db) with hdb1
    have hstep : addVote db v none (some cid) = (Outcome.created, db1) :=
      addVote_comment_created db v cid c u hcid hc hself hnov hu
    have hc1 : findComment db1 cid = some c := hc
    have hu1 : findUser db1 c.authorId
        = some { u with learningScore := u.learningScore + 1 } := by
      show (updateUserScore db.users c.authorId 1).find?
          (fun x => x.id == c.authorId) = _
      rw [find?_updateUserScore, hu']
      simp [hideq]
    have hdup1 : findVoteByUserComment db1 v cid = some nv := by
      show (nv :: db.votes).find?
          (fun w => w.userId == v && w.commentId == some cid) = some nv
      simp [hnv, List.find?_cons]
    have hvid1 : findVoteById db1 db.nextVoteId = some nv := by
      show (nv :: db.votes).find? (fun w => w.id == db.nextVoteId) = some nv
      simp [hnv, List.find?_cons]
    have hrem : removeVote db1 v db.nextVoteId =
        (Outcome.removed,
          { db1 with
            votes := db1.votes.filter (fun w => w.id != db.nextVoteId),
            users := updateUserScore db1.users c.authorId (-1) }) := by
      simp [removeVote, hvid1, hnv, hc1, hu1]
    rw [hstep]
    refine ⟨rfl, ?_, ?_, ?_, ?_⟩
    · show (findUser db1 c.authorId).map User.learningScore = _
      rw [hu1]
      rfl
    · show (addVote db1 v none (some cid)).1 = Outcome.conflict
      simp [addVote, addVoteRacy, truthy, parsedId, hcid, hc1, hself, hdup1]
    · show (removeVote db1 v db.nextVoteId).1 = Outcome.removed
      rw [hrem]
    · show (findUser (removeVote db1 v db.nextVoteId).2 c.authorId).map
          User.learningScore = some u.learningScore
      rw [hrem]
      show ((updateUserScore db1.users c.authorId (-1)).find?
          (fun x => x.id == c.authorId)).map User.learningScore
        = some u.learningScore
      rw [find?_updateUserScore]
      have hx : db1.users.find? (fun x => x.id == c.authorId)
          = some { u with learningScore := u.learningScore + 1 } := hu1
      rw [hx]
      simp [hideq]

theorem c4_vote_reputation_roundtrip_witness :
    ((addVote dbBase "bob" (some 1) none).1 = Outcome.created ∧
     (findUser (addVote dbBase "bob" (some 1) none).2 post1.authorId).map
         User.learningScore = some (alice.learningScore + 1) ∧
     (addVote (addVote dbBase "bob" (some 1) none).2 "bob" (some 1) none).1
       = Outcome.conflict ∧
     (removeVote (addVote dbBase "bob" (some 1) none).2 "bob"
         dbBase.nextVoteId).1 = Outcome.removed ∧
     (findUser (removeVote (addVote dbBase "bob" (some 1) none).2 "bob"
         dbBase.nextVoteId).2 post1.authorId).map User.learningScore
       = some alice.learningScore) ∧
    ((addVote dbBase "bob" none (some 1)).1 = Outcome.created ∧
     (findUser (addVote dbBase "bob" none (some 1)).2 comment1.authorId).map
         User.learningScore = some (alice.learningScore + 1) ∧
     (addVote (addVote dbBase "bob" none (some 1)).2 "bob" none (some 1)).1
       = Outcome.conflict ∧
     (removeVote (addVote dbBase "bob" none (some 1)).2 "bob"
         dbBase.nextVoteId).1 = Outcome.removed ∧
     (findUser (removeVote (addVote dbBase "bob" none (some 1)).2 "bob"
         dbBase.nextVoteId).2 comment1.authorId).map User.learningScore
       = some alice.learningScore) :=
  ⟨c4_vote_reputation_roundtrip.1 dbBase "bob" 1 post1 alice (by decide)
     (by decide) (by decide) (by decide) (by decide) (by decide),
   c4_vote_reputation_roundtrip.2 dbBase "bob" 1 comment1 alice (by decide)
     (by decide) (by decide) (by decide) (by decide)⟩

theorem reportContent_post_created (db : Db) (r : String) (pid : Int)
    (post : Post) (reason : String)
    (hpid : pid ≠ 0)
    (hreason : validReasons.contains reason = true)
    (hpost : findPost db pid = some post)
    (hdel : post.deletedAt = none)
    (hself : post.authorId ≠ r)
    (hnor : findReportByUserPost db r pid = none) :
    (reportContent db r (some pid) none reason).1 = Outcome.created ∧
    (reportContent db r (some pid) none reason).2.reports
      = { id := db.nextReportId, reporterId := r, postId := some pid,
          commentId := none, reason := reason } :: db.reports ∧
    (reportContent db r (some pid) none reason).2.posts
      = (if REPORT_THRESHOLD ≤ countPostReports db pid + 1 then
           setPostHidden db.posts pid true else db.posts) := by
  have hself' : ¬post.authorId = r := hself
  have hmem : reason ∈ validReasons := by simpa using hreason
  refine ⟨?_, ?_, ?_⟩ <;>
    simp [reportContent, truthy, hpid, hreason, hmem, hpost, hdel, hself', hnor,
      countPostReports, List.filter_cons] <;>
    split <;> simp_all

theorem reportContent_comment_created (db : Db) (r : String) (cid : Int)
    (c : Comment) (reason : String)
    (hcid : cid ≠ 0)
    (hreason : validReasons.contains reason = true)
    (hc : findComment db cid = some c)
    (hself : c.authorId ≠ r)
    (hnor : findReportByUserComment db r cid = none) :
    (reportContent db r none (some cid) reason).1 = Outcome.created ∧
    (reportContent db r none (some cid) reason).2.reports
      = { id := db.nextReportId, reporterId := r, postId := none,
          commentId := some cid, reason := reason } :: db.reports ∧
    (reportContent db r none (some cid) reason).2.comments
      = (if REPORT_THRESHOLD ≤ countCommentReports db cid + 1 then
           setCommentHidden db.comments cid true else db.comments) := by
  have hself' : ¬c.authorId = r := hself
  have hmem : reason ∈ validReasons := by simpa using hreason
  refine ⟨?_, ?_, ?_⟩ <;>
    simp [reportContent, truthy, hcid, hreason, hmem, hc, hself', hnor,
      countCommentReports, List.filter_cons] <;>
    split <;> simp_all

/-- Claim C2: on an item — post or comment — that has exactly 4 stored
reports (four distinct reporters, not handled here), a 5th valid report
from a fresh non-author reporter succeeds and, in the same step as the
insert and the count, flips the item's `isHidden` flag to true; a 6th valid
report from yet another fresh reporter also succeeds, is stored (the count
reaches 6), and leaves the flag true. -/
theorem c2_threshold_suppression :
    (∀ (db : Db) (pid : Int) (post : Post) (r5 r6 reason5 reason6 : String),
        pid ≠ 0 →
        findPost db pid = some post →
        post.deletedAt = none →
        countPostReports db pid = 4 →
        post.authorId ≠ r5 →
        post.authorId ≠ r6 →
        r6 ≠ r5 →
        validReasons.contains reason5 = true →
        validReasons.contains reason6 = true →
        findReportByUserPost db r5 pid = none →
        findReportByUserPost db r6 pid = none →
        (reportContent db r5 (some pid) none reason5).1 = Outcome.created ∧
        countPostReports (reportContent db r5 (some pid) none reason5).2 pid
          = 5 ∧
        (findPost (reportContent db r5 (some pid) none reason5).2 pid).map
            Post.isHidden = some true ∧
        (reportContent (reportContent db r5 (some pid) none reason5).2 r6
            (some pid) none reason6).1 = Outcome.created ∧
        countPostReports (reportContent (reportContent db r5 (some pid) none
            reason5).2 r6 (some pid) none reason6).2 pid = 6 ∧
        (findPost (reportContent (reportContent db r5 (some pid) none
            reason5).2 r6 (some pid) none reason6).2 pid).map Post.isHidden
          = some true) ∧
    (∀ (db : Db) (cid : Int) (c : Comment) (r5 r6 reason5 reason6 : String),
        cid ≠ 0 →
        findComment db cid = some c →
        countCommentReports db cid = 4 →
        c.authorId ≠ r5 →
        c.authorId ≠ r6 →
        r6 ≠ r5 →
        validReasons.contains reason5 = true →
        validReasons.contains reason6 = true →
        findReportByUserComment db r5 cid = none →
        findReportByUserComment db r6 cid = none →
        (reportContent db r5 none (some cid) reason5).1 = Outcome.created ∧
        countCommentReports (reportContent db r5 none (some cid) reason5).2 cid
          = 5 ∧
        (findComment (reportContent db r5 none (some cid) reason5).2 cid).map
            Comment.isHidden = some true ∧
        (reportContent (reportContent db r5 none (some cid) reason5).2 r6
            none (some cid) reason6).1 = Outcome.created ∧
        countCommentReports (reportContent (reportContent db r5 none (some cid)
            reason5).2 r6 none (some cid) reason6).2 cid = 6 ∧
        (findComment (reportContent (reportContent db r5 none (some cid)
            reason5).2 r6 none (some cid) reason6).2 cid).map Comment.isHidden
          = some true) := by
  constructor
  · intro db pid post r5 r6 reason5 reason6 hpid hpost hdel hcount hs5 hs6 hne
      hv5 hv6 hno5 hno6
    obtain ⟨h5o, h5r, h5p⟩ :=
      reportContent_post_created db r5 pid post reason5 hpid hv5 hpost hdel hs5
        hno5
    have hpostid : (post.id == pid) = true := by
      have h2 := List.find?_some
        (hpost : db.posts.find? (fun p => p.id == pid) = some post)
      simpa using h2
    have hth5 : REPORT_THRESHOLD ≤ countPostReports db pid + 1 := by
      rw [hcount]; decide
    have h5p' : (reportContent db r5 (some pid) none reason5).2.posts
        = setPostHidden db.posts pid true := by
      rw [h5p, if_pos hth5]
    have hcount5 : countPostReports
        (reportContent db r5 (some pid) none reason5).2 pid = 5 := by
      show ((reportContent db r5 (some pid) none reason5).2.reports.filter
          (fun r => r.postId == some pid)).length = 5
      rw [h5r]
      simp only [List.filter_cons]
      have hx4 : countPostReports db pid = 4 := hcount
      simp only [countPostReports] at hx4
      simp [hx4]
    have hpost5 : findPost (reportContent db r5 (some pid) none reason5).2 pid
        = some { post with isHidden := true } := by
      show (reportContent db r5 (some pid) none reason5).2.posts.find?
          (fun p => p.id == pid) = _
      rw [h5p', find?_setPostHidden]
      have hx : db.posts.find? (fun p => p.id == pid) = some post := hpost
      rw [hx]
      have hpideq : post.id = pid := by simpa using hpostid
      simp [hpideq]
    have hhid5 : (findPost (reportContent db r5 (some pid) none
        reason5).2 pid).map Post.isHidden = some true := by
      rw [hpost5]
      rfl
    have hdel5 : ({ post with isHidden := true } : Post).deletedAt = none := hdel
    have hs6' : ({ post with isHidden := true } : Post).authorId ≠ r6 := hs6
    have hno6' : findReportByUserPost (reportContent db r5 (some pid) none
        reason5).2 r6 pid = none := by
      show (reportContent db r5 (some pid) none reason5).2.reports.find?
          (fun r => r.reporterId == r6 && r.postId == some pid) = none
      rw [h5r]
      have hbr : (r5 == r6) = false := by
        simp [hne.symm]
      simp [List.find?_cons, hbr]
      simpa [findReportByUserPost] using hno6
    obtain ⟨h6o, h6r, h6p⟩ :=
      reportContent_post_created (reportContent db r5 (some pid) none
        reason5).2 r6 pid { post with isHidden := true } reason6 hpid hv6
        hpost5 hdel5 hs6' hno6'
    have hth6 : REPORT_THRESHOLD ≤
        countPostReports (reportContent db r5 (some pid) none reason5).2 pid
          + 1 := by
      rw [hcount5]; decide
    have hcount6 : countPostReports (reportContent (reportContent db r5
        (some pid) none reason5).2 r6 (some pid) none reason6).2 pid = 6 := by
      show ((reportContent (reportContent db r5 (some pid) none reason5).2 r6
          (some pid) none reason6).2.reports.filter
          (fun r => r.postId == some pid)).length = 6
      rw [h6r]
      simp only [List.filter_cons]
      have hx5 : countPostReports (reportContent db r5 (some pid) none
          reason5).2 pid = 5 := hcount5
      simp only [countPostReports] at hx5
      simp [hx5]
    have hpost6 : findPost (reportContent (reportContent db r5 (some pid) none
        reason5).2 r6 (some pid) none reason6).2 pid
        = some { post with isHidden := true } := by
      show (reportContent (reportContent db r5 (some pid) none reason5).2 r6
          (some pid) none reason6).2.posts.find? (fun p => p.id == pid) = _
      rw [h6p, if_pos hth6, find?_setPostHidden]
      have hy : (reportContent db r5 (some pid) none reason5).2.posts.find?
          (fun p => p.id == pid) = some { post with isHidden := true } := hpost5
      rw [hy]
      have hpideq : post.id = pid := by simpa using hpostid
      simp [hpideq]
    refine ⟨h5o, hcount5, hhid5, h6o, hcount6, ?_⟩
    rw [hpost6]
    rfl
  · intro db cid c r5 r6 reason5 reason6 hcid hc hcount hs5 hs6 hne hv5 hv6
      hno5 hno6
    obtain ⟨h5o, h5r, h5c⟩ :=
      reportContent_comment_created db r5 cid c reason5 hcid hv5 hc hs5 hno5
    have hcidb : (c.id == cid) = true := by
      have h2 := List.find?_some
        (hc : db.comments.find? (fun x => x.id == cid) = some c)
      simpa using h2
    have hcideq : c.id = cid := by simpa using hcidb
    have hth5 : REPORT_THRESHOLD ≤ countCommentReports db cid + 1 := by
      rw [hcount]; decide
    have h5c' : (reportContent db r5 none (some cid) reason5).2.comments
        = setCommentHidden db.comments cid true := by
      rw [h5c, if_pos hth5]
    have hcount5 : countCommentReports
        (reportContent db r5 none (some cid) reason5).2 cid = 5 := by
      show ((reportContent db r5 none (some cid) reason5).2.reports.filter
          (fun r => r.commentId == some cid)).length = 5
      rw [h5r]
      simp only [List.filter_cons]
      have hx4 : countCommentReports db cid = 4 := hcount
      simp only [countCommentReports] at hx4
      simp [hx4]
    have hc5 : findComment (reportContent db r5 none (some cid) reason5).2 cid
        = some { c with isHidden := true } := by
      show (reportContent db r5 none (some cid) reason5).2.comments.find?
          (fun x => x.id == cid) = _
      rw [h5c', find?_setCommentHidden]
      have hx : db.comments.find? (fun x => x.id == cid) = some c := hc
      rw [hx]
      simp [hcideq]
    have hhid5 : (findComment (reportContent db r5 none (some cid)
        reason5).2 cid).map Comment.isHidden = some true := by
      rw [hc5]
      rfl
    have hs6' : ({ c with isHidden := true } : Comment).authorId ≠ r6 := hs6
    have hno6' : findReportByUserComment (reportContent db r5 none (some cid)
        reason5).2 r6 cid = none := by
      show (reportContent db r5 none (some cid) reason5).2.reports.find?
          (fun r => r.reporterId == r6 && r.commentId == some cid) = none
      rw [h5r]
      have hbr : (r5 == r6) = false := by
        simp [hne.symm]
      simp [List.find?_cons, hbr]
      simpa [findReportByUserComment] using hno6
    obtain ⟨h6o, h6r, h6c⟩ :=
      reportContent_comment_created (reportContent db r5 none (some cid)
        reason5).2 r6 cid { c with isHidden := true } reason6 hcid hv6 hc5
        hs6' hno6'
    have hth6 : REPORT_THRESHOLD ≤
        countCommentReports (reportContent db r5 none (some cid) reason5).2 cid
          + 1 := by
      rw [hcount5]; decide
    have hcount6 : countCommentReports (reportContent (reportContent db r5 none
        (some cid) reason5).2 r6 none (some cid) reason6).2 cid = 6 := by
      show ((reportContent (reportContent db r5 none (some cid) reason5).2 r6
          none (some cid) reason6).2.reports.filter
          (fun r => r.commentId == some cid)).length = 6
      rw [h6r]
      simp only [List.filter_cons]
      have hx5 : countCommentReports (reportContent db r5 none (some cid)
          reason5).2 cid = 5 := hcount5
      simp only [countCommentReports] at hx5
      simp [hx5]
    have hc6 : findComment (reportContent (reportContent db r5 none (some cid)
        reason5).2 r6 none (some cid) reason6).2 cid
        = some { c with isHidden := true } := by
      show (reportContent (reportContent db r5 none (some cid) reason5).2 r6
          none (some cid) reason6).2.comments.find? (fun x => x.id == cid) = _
      rw [h6c, if_pos hth6, find?_setCommentHidden]
      have hy : (reportContent db r5 none (some cid) reason5).2.comments.find?
          (fun x => x.id == cid) = some { c with isHidden := true } := hc5
      rw [hy]
      simp [hcideq]
    refine ⟨h5o, hcount5, hhid5, h6o, hcount6, ?_⟩
    rw [hc6]
    rfl

theorem c2_threshold_suppression_witness :
    ((reportContent dbFourReports "r5" (some 1) none "SPAM").1
        = Outcome.created ∧
     countPostReports (reportContent dbFourReports "r5" (some 1) none
        "SPAM").2 1 = 5 ∧
     (findPost (reportContent dbFourReports "r5" (some 1) none "SPAM").2 1).map
         Post.isHidden = some true ∧
     (reportContent (reportContent dbFourReports "r5" (some 1) none "SPAM").2
        "r6" (some 1) none "OTHER").1 = Outcome.created ∧
     countPostReports (reportContent (reportContent dbFourReports "r5" (some 1)
        none "SPAM").2 "r6" (some 1) none "OTHER").2 1 = 6 ∧
     (findPost (reportContent (reportContent dbFourReports "r5" (some 1) none
        "SPAM").2 "r6" (some 1) none "OTHER").2 1).map Post.isHidden
       = some true) ∧
    ((reportContent dbFourCommentReports "r5" none (some 1) "SPAM").1
        = Outcome.created ∧
     countCommentReports (reportContent dbFourCommentReports "r5" none (some 1)
        "SPAM").2 1 = 5 ∧
     (findComment (reportContent dbFourCommentReports "r5" none (some 1)
        "SPAM").2 1).map Comment.isHidden = some true ∧
     (reportContent (reportContent dbFourCommentReports "r5" none (some 1)
        "SPAM").2 "r6" none (some 1) "OTHER").1 = Outcome.created ∧
     countCommentReports (reportContent (reportContent dbFourCommentReports
        "r5" none (some 1) "SPAM").2 "r6" none (some 1) "OTHER").2 1 = 6 ∧
     (findComment (reportContent (reportContent dbFourCommentReports "r5" none
        (some 1) "SPAM").2 "r6" none (some 1) "OTHER").2 1).map
         Comment.isHidden = some true) :=
  ⟨c2_threshold_suppression.1 dbFourReports 1 post1 "r5" "r6" "SPAM" "OTHER"
     (by decide) (by decide) (by decide) (by decide) (by decide) (by decide)
     (by decide) (by decide) (by decide) (by decide) (by decide),
   c2_threshold_suppression.2 dbFourCommentReports 1 comment1 "r5" "r6" "SPAM"
     "OTHER" (by decide) (by decide) (by decide) (by decide) (by decide)
     (by decide) (by decide) (by decide) (by decide) (by decide)⟩


/-- Claim C6: an admin dismissal through any report id deletes every report
row stored for that report's target — the target's report count returns to 0
whatever it was — and clears the target's `isHidden` flag, both effects
produced by the one dismiss step, for post targets and for comment targets. -/
theorem c6_dismiss_clears_reports_and_unhides (db : Db) (rid : Int) (rep : Report)
    (hrep : findReportById db rid = some rep) :
    (∀ (pid : Int) (post : Post), rep.postId = some pid → pid ≠ 0 →
        findPost db pid = some post →
        (dismissReports db rid).1 = Outcome.ok ∧
        countPostReports (dismissReports db rid).2 pid = 0 ∧
        (findPost (dismissReports db rid).2 pid).map Post.isHidden = some false) ∧
    (∀ (cid : Int) (c : Comment), rep.postId = none → rep.commentId = some cid →
        cid ≠ 0 → findComment db cid = some c →
        (dismissReports db rid).1 = Outcome.ok ∧
        countCommentReports (dismissReports db rid).2 cid = 0 ∧
        (findComment (dismissReports db rid).2 cid).map Comment.isHidden
          = some false) := by
  constructor
  · intro pid post hpid hpz hpost
    have hstep : dismissReports db rid =
        (Outcome.ok,
          { db with
            reports := db.reports.filter (fun r => !(r.postId == some pid)),
            posts := setPostHidden db.posts pid false }) := by
      simp [dismissReports, truthy, hrep, hpid, hpz, hpost]
    rw [hstep]
    refine ⟨rfl, ?_, ?_⟩
    · show ((db.reports.filter (fun r => !(r.postId == some pid))).filter
          (fun r => r.postId == some pid)).length = 0
      rw [filter_not_filter]
      rfl
    · have hpostid : (post.id == pid) = true := by
        have h2 := List.find?_some
          (hpost : db.posts.find? (fun p => p.id == pid) = some post)
        simpa using h2
      have hpideq : post.id = pid := by simpa using hpostid
      show ((setPostHidden db.posts pid false).find? (fun p => p.id == pid)).map
          Post.isHidden = some false
      rw [find?_setPostHidden]
      have hx : db.posts.find? (fun p => p.id == pid) = some post := hpost
      rw [hx]
      simp [hpideq]
  · intro cid c hpn hcid hcz hc
    have hstep : dismissReports db rid =
        (Outcome.ok,
          { db with
            reports := db.reports.filter (fun r => !(r.commentId == some cid)),
            comments := setCommentHidden db.comments cid false }) := by
      simp [dismissReports, truthy, hrep, hpn, hcid, hcz, hc]
    rw [hstep]
    refine ⟨rfl, ?_, ?_⟩
    · show ((db.reports.filter (fun r => !(r.commentId == some cid))).filter
          (fun r => r.commentId == some cid)).length = 0
      rw [filter_not_filter]
      rfl
    · have hcidb : (c.id == cid) = true := by
        have h2 := List.find?_some
          (hc : db.comments.find? (fun x => x.id == cid) = some c)
        simpa using h2
      have hcideq : c.id = cid := by simpa using hcidb
      show ((setCommentHidden db.comments cid false).find?
          (fun x => x.id == cid)).map Comment.isHidden = some false
      rw [find?_setCommentHidden]
      have hx : db.comments.find? (fun x => x.id == cid) = some c := hc
      rw [hx]
      simp [hcideq]

theorem c6_dismiss_clears_reports_and_unhides_witness :
    (dismissReports dbSuppressed 12).1 = Outcome.ok ∧
    countPostReports (dismissReports dbSuppressed 12).2 3 = 0 ∧
    (findPost (dismissReports dbSuppressed 12).2 3).map Post.isHidden
      = some false :=
  (c6_dismiss_clears_reports_and_unhides dbSuppressed 12 (mkReport 12 "r2" 3)
      (by decide)).1 3 post3 (by decide) (by decide) (by decide)
